import Mathlib

/-!
Verification of the GHtoSAM_LK Grasshopper script (src/GHtoSAM_LK.py).

The script is a linear validate / transform / serialize pipeline over three
input collections (trees, solar-array surfaces, buildings), producing a
textual LKscript document, optionally written to a file.

Shallow-embedding conventions:
* Rhino geometry objects are modelled by the results of the kernel queries
  the script performs on them (`IsValid`, `AreaMassProperties.Compute(.).Centroid`,
  `ClosestPoint`, `NormalAt`, `ToBrep().DuplicateEdgeCurves()` lengths,
  box centre / extents / plane X axis).  The kernel itself is out of scope
  (spec section 1) and enters only through these recorded query results.
* External maths and formatting (Rhino `Vector3d.VectorAngle`, `Unitize`,
  Python `math.pi`, `math.degrees`, float-to-text conversion used by
  `str.format`) are collected in an `Env` record so that pipeline-level
  claims hold for every behaviour of those externals; section `RealModel`
  instantiates them with the real-number definitions for the angle claims.
* Coordinates are taken in an arbitrary linear ordered field `K`
  (instantiated at `ℚ` for executable claims and at `ℝ` for angle claims);
  machine floats are idealised as exact field elements.
* The script's `print` calls inside `validate_inputs` are modelled by the
  `Option String` component of its result: `some m` is the single message
  printed before the early `return False`.  The iterability guard on
  line 16 is vacuous here because the inputs are embedded as Lean lists.
* Python falsiness of `_lk_path` is modelled by equality with the empty
  string, and `os.path.abspath` is an abstract parameter of the run
  (a stand-in such as `abspathModel` is used for concrete runs).
-/

namespace GH

/-- `rg.Point3d`: a 3D point, as used by the script (coordinates only). -/
structure Point3d (K : Type) where
  x : K
  y : K
  z : K
deriving DecidableEq

/-- `rg.Vector3d`: a 3D vector (coordinates only). -/
structure Vector3d (K : Type) where
  x : K
  y : K
  z : K
deriving DecidableEq

/-- A surface-like Rhino object (an `rg.Surface`, a Brep face converted by
`ToNurbsSurface()`, or a Brep used through the same duck-typed interface),
modelled by the results of the kernel queries the script performs on it:
* `isValid` — the `IsValid` property (line 37);
* `centroid` — `rg.AreaMassProperties.Compute(self).Centroid` (lines 42, 85);
* `closestPoint p` — `self.ClosestPoint(p)`: `some (u, v)` when the query
  succeeds with parameters `(u, v)`, `none` when it fails (lines 43, 86);
* `normalAt u v` — `self.NormalAt(u, v)` (lines 45, 89);
* `edgeLens` — the lengths, in order, of `self.ToBrep().DuplicateEdgeCurves()`
  (lines 70-73). -/
structure Surface (K : Type) where
  isValid : Bool
  centroid : Point3d K
  closestPoint : Point3d K → Option (K × K)
  normalAt : K → K → Vector3d K
  edgeLens : List K

/-- `rg.Box`: modelled by the queries the script performs on it:
`IsValid`, `Center`, `X.Length`, `Y.Length`, `Z.Length`, `Plane.XAxis`. -/
structure Box (K : Type) where
  isValid : Bool
  center : Point3d K
  xLength : K
  yLength : K
  zLength : K
  planeXAxis : Vector3d K

/-- An element of the `trees` input collection: either an `rg.Point3d`
or any other Python object (which fails the `isinstance` check, line 22). -/
inductive TreeElem (K : Type) where
  | pt (p : Point3d K)
  | other

/-- An element of the `arrays` input collection: an `rg.Surface`, an
`rg.Brep` (carrying the `ToNurbsSurface()` views of its faces and its own
duck-typed surface interface), or any other object (fails `isinstance`,
line 28). -/
inductive ArrElem (K : Type) where
  | srf (s : Surface K)
  | brp (faces : List (Surface K)) (self : Surface K)
  | other

/-- An element of the `buildings` input collection: an `rg.Box` or any
other object (fails `isinstance`, line 52). -/
inductive BldgElem (K : Type) where
  | bx (b : Box K)
  | other

/-- Message printed at line 23. -/
def treeMsg (i : Nat) : String :=
  "Error: Tree at index " ++ toString i ++ " is not a Rhino Point3d."

/-- Message printed at line 29. -/
def arrayTypeMsg (i : Nat) : String :=
  "Error: Array at index " ++ toString i ++ " is not a Rhino Surface or Brep."

/-- Message printed at line 38. -/
def surfaceInvalidMsg (i : Nat) : String :=
  "Error: Surface at index " ++ toString i ++ " is not valid."

/-- Message printed at line 47. -/
def normalMsg (i : Nat) : String :=
  "Error: Surface at index " ++ toString i ++ " has a normal pointing in a negative direction."

/-- Message printed at line 53. -/
def bldgTypeMsg (i : Nat) : String :=
  "Error: Building at index " ++ toString i ++ " is not a Rhino Box."

/-- Message printed at line 57. -/
def bldgInvalidMsg (i : Nat) : String :=
  "Error: Building at index " ++ toString i ++ " is not a valid Box."

variable {K : Type} [LinearOrderedField K]

/-- The body of the tree loop (lines 21-24): `none` if the element passes,
`some msg` if the loop prints `msg` and returns `False`. -/
def checkTree (i : Nat) : TreeElem K → Option String
  | .pt _ => none
  | .other => some (treeMsg i)

/-- Lines 36-48 applied to the (possibly promoted) surface `s`:
validity check, then the normal-direction check, which is only performed
when the `ClosestPoint` query at the centroid succeeds (line 44). -/
def checkSurf (i : Nat) (s : Surface K) : Option String :=
  if s.isValid = false then some (surfaceInvalidMsg i)
  else
    match s.closestPoint s.centroid with
    | some (u, v) =>
      if (s.normalAt u v).z < 0 then some (normalMsg i) else none
    | none => none

/-- The body of the array loop (lines 27-48): the `isinstance` check
(line 28), promotion of a single-face Brep to its first face's NurbsSurface
view (lines 33-34), then `checkSurf`.  A Brep with a face count other
than one is used as-is. -/
def checkArray (i : Nat) : ArrElem K → Option String
  | .srf s => checkSurf i s
  | .brp faces self =>
    checkSurf i (if faces.length = 1 then faces.getD 0 self else self)
  | .other => some (arrayTypeMsg i)

/-- The body of the building loop (lines 51-58). -/
def checkBldg (i : Nat) : BldgElem K → Option String
  | .bx b => if b.isValid = false then some (bldgInvalidMsg i) else none
  | .other => some (bldgTypeMsg i)

/-- A `for i, e in enumerate(l)` loop whose body prints a message and
returns `False` at the first element on which `f` produces one:
returns the first message, `none` when the whole loop runs through.
`n` is the index of the first element of `l`. -/
def scanFrom {α : Type} (f : Nat → α → Option String) : Nat → List α → Option String
  | _, [] => none
  | n, e :: rest =>
    match f n e with
    | some m => some m
    | none => scanFrom f (n + 1) rest

/-- `validate_inputs` (lines 6-60): runs the three loops in the fixed
order trees, arrays, buildings; the result is the returned boolean paired
with the message printed before an early `return False` (`none` on
success). -/
def validate_inputs (trees : List (TreeElem K)) (arrays : List (ArrElem K))
    (buildings : List (BldgElem K)) : Bool × Option String :=
  match scanFrom checkTree 0 trees with
  | some m => (false, some m)
  | none =>
    match scanFrom checkArray 0 arrays with
    | some m => (false, some m)
    | none =>
      match scanFrom checkBldg 0 buildings with
      | some m => (false, some m)
      | none => (true, none)

/-- The single-quote character, written through its code point so that the
embedded LKscript text can be assembled verbatim. -/
def sq : String := String.mk [Char.ofNat 39]

/-- The external maths / kernel / formatting operations used by the
encoders, abstracted so that pipeline-level claims hold for every
behaviour of these externals:
* `fmt` — the host's default float-to-text conversion used by `str.format`;
* `vectorAngle` — `rg.Vector3d.VectorAngle` (lines 94, 100, 118);
* `unitize` — `rg.Vector3d.Unitize` (line 90);
* `pi` — `math.pi` (line 96);
* `degrees` — `math.degrees` (lines 97, 100, 118). -/
structure Env (K : Type) where
  fmt : K → String
  vectorAngle : Vector3d K → Vector3d K → K
  unitize : Vector3d K → Vector3d K
  pi : K
  degrees : K → K

/-- `rg.Vector3d.XAxis`. -/
def xAxis (K : Type) [LinearOrderedField K] : Vector3d K := ⟨1, 0, 0⟩

/-- `rg.Vector3d.YAxis`. -/
def yAxis (K : Type) [LinearOrderedField K] : Vector3d K := ⟨0, 1, 0⟩

/-- `rg.Vector3d.ZAxis`. -/
def zAxis (K : Type) [LinearOrderedField K] : Vector3d K := ⟨0, 0, 1⟩

/-- `get_trimming_rectangle_dimensions` (lines 62-74): extracts the edge
curves of `surface.ToBrep()` and returns
`(edge_curves[1].GetLength(), edge_curves[0].GetLength())` as
`(width, length)`.  Python raises `IndexError` when fewer than two edge
curves exist; the embedding returns 0 there and claims about this function
are conditioned on at least two edges. -/
def get_trimming_rectangle_dimensions (surface : Surface K) : K × K :=
  (surface.edgeLens.getD 1 0, surface.edgeLens.getD 0 0)

/-- Lines 92-97 applied to the (already unitized, line 90) normal `nu`:
project the normal to the ground plane, take the angle against the
global Y axis, replace it by `2*pi - angle` when the normal's X component
is negative, and convert to degrees. -/
def panelAzimuth (env : Env K) (nu : Vector3d K) : K :=
  let projected : Vector3d K := ⟨nu.x, nu.y, 0⟩
  let a := env.vectorAngle (yAxis K) projected
  env.degrees (if nu.x < 0 then 2 * env.pi - a else a)

/-- Line 100 applied to the unitized normal `nu`: the angle against the
global Z axis, in degrees. -/
def panelTilt (env : Env K) (nu : Vector3d K) : K :=
  env.degrees (env.vectorAngle nu (zAxis K))

/-- `surface_to_panel` (lines 76-105): returns `""` when the
`ClosestPoint` query at the centroid fails (lines 86-88), otherwise the
two-statement LKscript record with the computed centroid coordinates,
trimming-rectangle width/length, azimuth and tilt. -/
def surface_to_panel (env : Env K) (surface : Surface K) (i : Nat) : String :=
  match surface.closestPoint surface.centroid with
  | none => ""
  | some (u, v) =>
    let normal := env.unitize (surface.normalAt u v)
    let azimuth := panelAzimuth env normal
    let tilt := panelTilt env normal
    let wl := get_trimming_rectangle_dimensions surface
    "O = create(" ++ sq ++ "Active surface" ++ sq ++ ");\n" ++
    "property(O, \x7bName=" ++ sq ++ "Panel_" ++ toString i ++ sq ++
    ", X=" ++ env.fmt surface.centroid.x ++ ", Y=" ++ env.fmt surface.centroid.y ++
    ",Width = " ++ env.fmt wl.1 ++ ", Length = " ++ env.fmt wl.2 ++
    ", Azimuth=" ++ env.fmt azimuth ++ ", Tilt=" ++ env.fmt tilt ++ "\x7d);\n"

/-- `box_to_building` (lines 108-122).  The `Z` slot is formatted from the
Python integer `0` (line 110), hence the literal `0` in the text. -/
def box_to_building (env : Env K) (box : Box K) (i : Nat) : String :=
  let rotation := env.degrees (env.vectorAngle (xAxis K) box.planeXAxis)
  "O = create(" ++ sq ++ "Box" ++ sq ++ ");\n" ++
  "property(O, \x7bName=" ++ sq ++ "Building_" ++ toString i ++ sq ++
  ", X=" ++ env.fmt box.center.x ++ ", Y=" ++ env.fmt box.center.y ++
  ", Z=0, Width=" ++ env.fmt box.xLength ++
  ", Length=" ++ env.fmt box.yLength ++ ", Height=" ++ env.fmt box.zLength ++
  ", Rotation=" ++ env.fmt rotation ++ "\x7d);\n"

/-- `point_to_tree` (lines 125-134).  The four canopy/trunk constants are
Python integers, formatted as the literals `20`, `20`, `8`, `8`. -/
def point_to_tree (env : Env K) (point : Point3d K) (i : Nat) : String :=
  "O = create(" ++ sq ++ "Tree" ++ sq ++ ");\n" ++
  "property(O, \x7bName=" ++ sq ++ "Tree_" ++ toString i ++ sq ++
  ", X=" ++ env.fmt point.x ++ ", Y=" ++ env.fmt point.y ++
  ", Z=0, Diameter=20, Height=20, TopDiameter=8, TrunkHeight=8\x7d);\n"

instance [LinearOrderedField K] : Inhabited (Point3d K) := ⟨⟨0, 0, 0⟩⟩

instance [LinearOrderedField K] : Inhabited (Surface K) :=
  ⟨{ isValid := true, centroid := default, closestPoint := fun _ => none,
     normalAt := fun _ _ => ⟨0, 0, 0⟩, edgeLens := [] }⟩

instance [LinearOrderedField K] : Inhabited (Box K) :=
  ⟨{ isValid := true, center := default, xLength := 0, yLength := 0,
     zLength := 0, planeXAxis := ⟨0, 0, 0⟩ }⟩

/-- The object on which the encoding loop (line 145-146) calls the surface
queries: the raw collection element, with no Brep-to-face promotion (the
promotion at lines 33-34 is local to validation).  On a non-surface object
Python would raise; that case is unreachable after validation and is
mapped to a default. -/
def rawSurface : ArrElem K → Surface K
  | .srf s => s
  | .brp _ self => self
  | .other => default

/-- The box used by the building encoding loop (lines 148-149); the
non-box case is unreachable after validation. -/
def rawBox : BldgElem K → Box K
  | .bx b => b
  | .other => default

/-- The point used by the tree encoding loop (lines 151-152); the
non-point case is unreachable after validation. -/
def rawPoint : TreeElem K → Point3d K
  | .pt p => p
  | .other => default

/-- The fixed scene-reset statement (line 144). -/
def resetStmt : String := "clear_scene();\n"

/-- The fixed placeholder document (line 137). -/
def placeholder : String := "Please check inputs"

/-- The panel statements in input order: the contribution of the loop at
lines 145-146. -/
def panelStmts (env : Env K) (arrays : List (ArrElem K)) : List String :=
  arrays.enum.map fun p => surface_to_panel env (rawSurface p.2) p.1

/-- The building statements in input order (lines 148-149). -/
def buildingStmts (env : Env K) (buildings : List (BldgElem K)) : List String :=
  buildings.enum.map fun p => box_to_building env (rawBox p.2) p.1

/-- The tree statements in input order (lines 151-152). -/
def treeStmts (env : Env K) (trees : List (TreeElem K)) : List String :=
  trees.enum.map fun p => point_to_tree env (rawPoint p.2) p.1

/-- The value of the global `lkscript` after lines 136-152: the placeholder
when validation fails, otherwise the scene reset followed by the three
`lkscript += ...` loops (panels, then buildings, then trees). -/
def lkscriptOf (env : Env K) (trees : List (TreeElem K)) (arrays : List (ArrElem K))
    (buildings : List (BldgElem K)) : String :=
  if (validate_inputs trees arrays buildings).1 = true then
    let s1 := arrays.enum.foldl
      (fun acc p => acc ++ surface_to_panel env (rawSurface p.2) p.1) resetStmt
    let s2 := buildings.enum.foldl
      (fun acc p => acc ++ box_to_building env (rawBox p.2) p.1) s1
    trees.enum.foldl
      (fun acc p => acc ++ point_to_tree env (rawPoint p.2) p.1) s2
  else placeholder

/-- The observable outcome of one run of the script:
the validation verdict and printed validation message, the assembled
`lkscript`, the `lk_path` output, the file system after the run (path to
contents), and the write performed, if any. -/
structure RunResult where
  valid : Bool
  errMsg : Option String
  lkscript : String
  lk_path : String
  fs : String → Option String
  wrote : Option (String × String)

/-- The whole script (lines 136-165).  `lkPathIn` is the ambient
`_lk_path` input (Python-falsy modelled as `""`, line 155), `writeLk` the
`_write_lk` flag, `abspath` the external `os.path.abspath`, and `fs0` the
file system before the run.  Note that the path setup and file writing at
lines 154-165 run regardless of the validation verdict. -/
def runScript (env : Env K) (trees : List (TreeElem K)) (arrays : List (ArrElem K))
    (buildings : List (BldgElem K)) (lkPathIn : String) (writeLk : Bool)
    (abspath : String → String) (fs0 : String → Option String) : RunResult :=
  let v := validate_inputs trees arrays buildings
  let doc := lkscriptOf env trees arrays buildings
  let p := if lkPathIn = "" then "3DShading.lk" else lkPathIn
  let full_path := abspath p
  if writeLk = true then
    { valid := v.1, errMsg := v.2, lkscript := doc, lk_path := p,
      fs := fun q => if q = full_path then some doc else fs0 q,
      wrote := some (full_path, doc) }
  else
    { valid := v.1, errMsg := v.2, lkscript := doc,
      lk_path := "_write_lk not set to True",
      fs := fs0, wrote := none }

/-- A concrete stand-in for `os.path.abspath` with working directory
`cwd`: paths beginning with the separator are already absolute, others
are resolved against `cwd`.  Used only to instantiate concrete runs. -/
def abspathModel (cwd p : String) : String :=
  if p.data.head? = some (Char.ofNat 47) then p else cwd ++ "/" ++ p

/-- Euclidean dot product on the modelled vectors. -/
def vdot (v w : Vector3d ℝ) : ℝ := v.x * w.x + v.y * w.y + v.z * w.z

/-- Euclidean length of a modelled vector. -/
noncomputable def vnorm (v : Vector3d ℝ) : ℝ := Real.sqrt (vdot v v)

/-- The real-number model of `rg.Vector3d.VectorAngle`: the angle between
the two vectors, in radians, in `[0, pi]` (`arccos` of the normalised dot
product; Lean's division-by-zero convention makes the degenerate zero
vector yield `pi/2`). -/
noncomputable def rVectorAngle (v w : Vector3d ℝ) : ℝ :=
  Real.arccos (vdot v w / (vnorm v * vnorm w))

/-- The real-number model of `rg.Vector3d.Unitize`: scale to unit length;
a zero vector is left unchanged (Lean's division-by-zero convention
matches Rhino's leave-unchanged behaviour there). -/
noncomputable def rUnitize (v : Vector3d ℝ) : Vector3d ℝ :=
  ⟨v.x / vnorm v, v.y / vnorm v, v.z / vnorm v⟩

/-- The real-number instantiation of the external operations: the
mathematical meanings of `VectorAngle`, `Unitize`, `math.pi` and
`math.degrees`.  The host's float-to-text conversion has no mathematical
content and is instantiated trivially; no angle claim depends on it. -/
noncomputable def realEnv : Env ℝ :=
  { fmt := fun _ => "", vectorAngle := rVectorAngle, unitize := rUnitize,
    pi := Real.pi, degrees := fun x => x * 180 / Real.pi }

/-- An early-returning loop runs through without a message exactly when no
element produces one. -/
theorem scanFrom_eq_none {α : Type} (f : Nat → α → Option String) (l : List α) :
    ∀ n, scanFrom f n l = none ↔ ∀ i (h : i < l.length), f (n + i) l[i] = none := by
  induction l with
  | nil => intro n; simp [scanFrom]
  | cons e rest ih =>
    intro n
    cases hfe : f n e with
    | some m =>
      simp only [scanFrom, hfe]
      constructor
      · intro h; exact absurd h (by simp)
      · intro h
        have h0 := h 0 (by simp)
        simp [hfe] at h0
    | none =>
      simp only [scanFrom, hfe]
      rw [ih (n + 1)]
      constructor
      · intro h i hi
        cases i with
        | zero => simpa using hfe
        | succ j =>
          have hj := h j (by simpa using Nat.lt_of_succ_lt_succ hi)
          have harith : n + 1 + j = n + (j + 1) := by omega
          rw [harith] at hj
          simpa using hj
      · intro h i hi
        have hj := h (i + 1) (by simpa using Nat.succ_lt_succ hi)
        have harith : n + (i + 1) = n + 1 + i := by omega
        rw [harith] at hj
        simpa using hj

/-- An early-returning loop reports the message of the first failing
element. -/
theorem scanFrom_first {α : Type} (f : Nat → α → Option String) (l : List α) :
    ∀ n i (h : i < l.length) m,
      (∀ j (hj : j < l.length), j < i → f (n + j) l[j] = none) →
      f (n + i) l[i] = some m → scanFrom f n l = some m := by
  induction l with
  | nil => intro n i h; exact absurd h (by simp)
  | cons e rest ih =>
    intro n i h m hpre hf
    cases i with
    | zero =>
      simp only [Nat.add_zero, List.getElem_cons_zero] at hf
      simp [scanFrom, hf]
    | succ j =>
      have h0 : f n e = none := by
        have := hpre 0 (by simp) (by omega)
        simpa using this
      simp only [scanFrom, h0]
      apply ih (n + 1) j (by simpa using Nat.lt_of_succ_lt_succ h) m
      · intro k hk hkj
        have := hpre (k + 1) (by simpa using Nat.succ_lt_succ hk) (by omega)
        have harith : n + (k + 1) = n + 1 + k := by omega
        rw [harith] at this
        simpa using this
      · have harith : n + (j + 1) = n + 1 + j := by omega
        rw [harith] at hf
        simpa using hf

/-- Splitting an early-returning loop at a list split point. -/
theorem scanFrom_append {α : Type} (f : Nat → α → Option String) (l₁ l₂ : List α) :
    ∀ n, scanFrom f n (l₁ ++ l₂) =
      match scanFrom f n l₁ with
      | some m => some m
      | none => scanFrom f (n + l₁.length) l₂ := by
  induction l₁ with
  | nil => intro n; simp [scanFrom]
  | cons e rest ih =>
    intro n
    simp only [List.cons_append, scanFrom]
    cases hfe : f n e with
    | some m => simp
    | none =>
      show scanFrom f (n + 1) (rest ++ l₂) =
        match scanFrom f (n + 1) rest with
        | some m => some m
        | none => scanFrom f (n + (rest.length + 1)) l₂
      rw [ih (n + 1)]
      have harith : n + 1 + rest.length = n + (rest.length + 1) := by omega
      rw [harith]

/-- Concatenation of a list of statements, the normal form for the
`lkscript += ...` loops. -/
def catStr : List String → String
  | [] => ""
  | s :: r => s ++ catStr r

theorem catStr_append (l₁ l₂ : List String) :
    catStr (l₁ ++ l₂) = catStr l₁ ++ catStr l₂ := by
  induction l₁ with
  | nil => simp [catStr, String.empty_append]
  | cons s r ih => simp [catStr, ih, String.append_assoc]

/-- A `lkscript += f(x)` loop is the initial string followed by the
concatenation of the per-element statements. -/
theorem foldl_cat {α : Type} (f : α → String) (l : List α) :
    ∀ init, l.foldl (fun acc x => acc ++ f x) init = init ++ catStr (l.map f) := by
  induction l with
  | nil => intro init; simp [catStr, String.append_empty]
  | cons e r ih =>
    intro init
    simp only [List.foldl_cons, List.map_cons, catStr]
    rw [ih, String.append_assoc]

/-- On a batch that passes validation, the assembled document is the scene
reset followed by the panel, building and tree statements, in that order. -/
theorem lkscript_valid_eq (env : Env K) (trees : List (TreeElem K))
    (arrays : List (ArrElem K)) (buildings : List (BldgElem K))
    (h : (validate_inputs trees arrays buildings).1 = true) :
    lkscriptOf env trees arrays buildings =
      resetStmt ++ (catStr (panelStmts env arrays) ++
        (catStr (buildingStmts env buildings) ++ catStr (treeStmts env trees))) := by
  unfold lkscriptOf
  rw [if_pos h, foldl_cat, foldl_cat, foldl_cat, String.append_assoc,
    String.append_assoc]
  rfl

/-- Boolean "starts with" on the modelled strings (`p` is a prefix of
`s`). -/
def strStarts (p s : String) : Bool := p.data.isPrefixOf s.data

/-- The statements the encoding loops append either are empty or begin
with the character `O` — in particular none of them begins another
`clear_scene();`. -/
def headOk (s : String) : Prop := s.data = [] ∨ ∃ r, s.data = 'O' :: r

theorem panel_headOk (env : Env K) (surface : Surface K) (i : Nat) :
    headOk (surface_to_panel env surface i) := by
  unfold surface_to_panel
  cases hc : surface.closestPoint surface.centroid with
  | none => exact Or.inl rfl
  | some uv =>
    obtain ⟨u, v⟩ := uv
    exact Or.inr ⟨_, rfl⟩

theorem box_headOk (env : Env K) (box : Box K) (i : Nat) :
    headOk (box_to_building env box i) :=
  Or.inr ⟨_, rfl⟩

theorem tree_headOk (env : Env K) (point : Point3d K) (i : Nat) :
    headOk (point_to_tree env point i) :=
  Or.inr ⟨_, rfl⟩

theorem headOk_append (a b : String) (ha : headOk a) (hb : headOk b) :
    headOk (a ++ b) := by
  have hd : (a ++ b).data = a.data ++ b.data := rfl
  cases ha with
  | inl h0 => unfold headOk; rw [hd, h0]; simpa using hb
  | inr h =>
    obtain ⟨r, hr⟩ := h
    exact Or.inr ⟨_, by rw [hd, hr]; rfl⟩

theorem catStr_headOk (l : List String) (h : ∀ s ∈ l, headOk s) :
    headOk (catStr l) := by
  induction l with
  | nil => exact Or.inl rfl
  | cons s r ih =>
    exact headOk_append s (catStr r) (h s (by simp))
      (ih fun x hx => h x (by simp [hx]))

theorem strStarts_clear_of_headOk (s : String) (h : headOk s) :
    strStarts "clear_scene();" s = false := by
  cases h with
  | inl h0 => unfold strStarts; rw [h0]; rfl
  | inr h =>
    obtain ⟨r, hr⟩ := h
    unfold strStarts; rw [hr]; rfl

theorem strStarts_clear_reset (t : String) :
    strStarts "clear_scene();" (resetStmt ++ t) = true := by
  unfold strStarts
  have hd : (resetStmt ++ t).data = "clear_scene();".data ++ ('\n' :: t.data) := rfl
  rw [hd]
  simp [List.isPrefixOf_iff_prefix]

/-- A concrete instantiation of the external operations used to evaluate
the pipeline on concrete inputs (the pipeline-level claims hold for every
instantiation; the angle claims use `realEnv` instead). -/
def qEnv : Env ℚ :=
  { fmt := fun q => toString q, vectorAngle := fun _ _ => 0, unitize := id,
    pi := 0, degrees := id }

/-- A concrete valid surface with an upward normal and two recorded edge
lengths. -/
def sUp : Surface ℚ :=
  { isValid := true, centroid := ⟨0, 0, 0⟩, closestPoint := fun _ => some (0, 0),
    normalAt := fun _ _ => ⟨0, 0, 1⟩, edgeLens := [3, 2] }

/-- A concrete valid surface whose normal points downward. -/
def sDown : Surface ℚ :=
  { isValid := true, centroid := ⟨0, 0, 0⟩, closestPoint := fun _ => some (0, 0),
    normalAt := fun _ _ => ⟨0, 0, -1⟩, edgeLens := [3, 2] }

/-- A concrete valid surface on which the `ClosestPoint` query at the
centroid fails. -/
def sNoCp : Surface ℚ :=
  { isValid := true, centroid := ⟨0, 0, 0⟩, closestPoint := fun _ => none,
    normalAt := fun _ _ => ⟨0, 0, 1⟩, edgeLens := [3, 2] }

theorem rVectorAngle_yAxis (x y : ℝ) :
    rVectorAngle (yAxis ℝ) ⟨x, y, 0⟩ =
      Real.arccos (y / Real.sqrt (x * x + y * y)) := by
  unfold rVectorAngle vnorm yAxis
  simp only [vdot]
  norm_num [Real.sqrt_one]

/-- The raw angle between north and the horizontal projection of a normal
with strictly negative east component is strictly positive: the projection
cannot point due north. -/
theorem arccos_pos_of_xneg (x y : ℝ) (hx : x < 0) :
    0 < Real.arccos (y / Real.sqrt (x * x + y * y)) := by
  apply Real.arccos_pos.mpr
  have hxx : 0 < x * x := mul_pos_of_neg_of_neg hx hx
  have hsum : 0 < x * x + y * y := by nlinarith [mul_self_nonneg y]
  have hr : 0 < Real.sqrt (x * x + y * y) := Real.sqrt_pos.mpr hsum
  rw [div_lt_one hr]
  calc y ≤ |y| := le_abs_self y
    _ = Real.sqrt (y * y) := (Real.sqrt_mul_self_eq_abs y).symm
    _ < Real.sqrt (x * x + y * y) := by
        apply Real.sqrt_lt_sqrt (mul_self_nonneg y)
        nlinarith

/-- C6: for every normal the encoder computes, the azimuth is obtained
from the raw angle `a` between north and the normal's horizontal
projection by the replacement `360 - a` (in degrees) exactly when the
normal's X component is negative, and the result lies in `[0, 360)`;
the tilt (angle between the unit normal and the vertical axis, line 100)
lies in `[0, 180]`. -/
theorem c6_azimuth_tilt_ranges (n : Vector3d ℝ) :
    panelAzimuth realEnv n =
      (if n.x < 0 then
        360 - realEnv.degrees (realEnv.vectorAngle (yAxis ℝ) ⟨n.x, n.y, 0⟩)
      else realEnv.degrees (realEnv.vectorAngle (yAxis ℝ) ⟨n.x, n.y, 0⟩))
    ∧ 0 ≤ panelAzimuth realEnv n ∧ panelAzimuth realEnv n < 360
    ∧ 0 ≤ panelTilt realEnv n ∧ panelTilt realEnv n ≤ 180 := by
  have hπ : (0 : ℝ) < Real.pi := Real.pi_pos
  have ha0 : 0 ≤ rVectorAngle (yAxis ℝ) ⟨n.x, n.y, 0⟩ := Real.arccos_nonneg _
  have haπ : rVectorAngle (yAxis ℝ) ⟨n.x, n.y, 0⟩ ≤ Real.pi := Real.arccos_le_pi _
  have hunfold : panelAzimuth realEnv n =
      (if n.x < 0 then 2 * Real.pi - rVectorAngle (yAxis ℝ) ⟨n.x, n.y, 0⟩
       else rVectorAngle (yAxis ℝ) ⟨n.x, n.y, 0⟩) * 180 / Real.pi := rfl
  have ht0 : 0 ≤ rVectorAngle n (zAxis ℝ) := Real.arccos_nonneg _
  have htπ : rVectorAngle n (zAxis ℝ) ≤ Real.pi := Real.arccos_le_pi _
  have htilt : panelTilt realEnv n = rVectorAngle n (zAxis ℝ) * 180 / Real.pi := rfl
  refine ⟨?_, ?_, ?_, ?_, ?_⟩
  · rw [hunfold]
    by_cases hx : n.x < 0
    · rw [if_pos hx, if_pos hx]
      show _ = 360 - rVectorAngle (yAxis ℝ) ⟨n.x, n.y, 0⟩ * 180 / Real.pi
      field_simp
      ring
    · rw [if_neg hx, if_neg hx]
      rfl
  · rw [hunfold]
    by_cases hx : n.x < 0
    · rw [if_pos hx]
      apply div_nonneg _ hπ.le
      nlinarith
    · rw [if_neg hx]
      apply div_nonneg _ hπ.le
      nlinarith
  · rw [hunfold]
    by_cases hx : n.x < 0
    · rw [if_pos hx]
      rw [div_lt_iff hπ]
      have hapos : 0 < rVectorAngle (yAxis ℝ) ⟨n.x, n.y, 0⟩ := by
        rw [rVectorAngle_yAxis]
        exact arccos_pos_of_xneg n.x n.y hx
      nlinarith
    · rw [if_neg hx]
      rw [div_lt_iff hπ]
      nlinarith
  · rw [htilt]
    exact div_nonneg (by nlinarith) hπ.le
  · rw [htilt]
    rw [div_le_iff hπ]
    nlinarith

/-- `validate_inputs` returns `True` exactly when all three loops run
through. -/
theorem validate_true_iff (trees : List (TreeElem K)) (arrays : List (ArrElem K))
    (buildings : List (BldgElem K)) :
    (validate_inputs trees arrays buildings).1 = true ↔
      scanFrom checkTree 0 trees = none ∧ scanFrom checkArray 0 arrays = none ∧
        scanFrom checkBldg 0 buildings = none := by
  unfold validate_inputs
  cases hst : scanFrom checkTree 0 trees with
  | some m => simp [hst]
  | none =>
    cases hsa : scanFrom checkArray 0 arrays with
    | some m => simp [hsa]
    | none =>
      cases hsb : scanFrom checkBldg 0 buildings with
      | some m => simp [hsb]
      | none => simp

/-- `validate_inputs` prints a message exactly when it returns `False`. -/
theorem validate_msg_none_iff (trees : List (TreeElem K)) (arrays : List (ArrElem K))
    (buildings : List (BldgElem K)) :
    (validate_inputs trees arrays buildings).2 = none ↔
      (validate_inputs trees arrays buildings).1 = true := by
  unfold validate_inputs
  cases hst : scanFrom checkTree 0 trees with
  | some m => simp
  | none =>
    cases hsa : scanFrom checkArray 0 arrays with
    | some m => simp
    | none =>
      cases hsb : scanFrom checkBldg 0 buildings with
      | some m => simp
      | none => simp

/-- C3: validation is all-or-nothing and ordered.  The verdict is `True`
exactly when every element of all three collections passes its
per-element check; a message is produced exactly when the verdict is
`False`; the message is the one of the first failing element, with the
tree loop taking precedence over the array loop and the array loop over
the building loop; and the result is a single boolean plus at most one
message (the result type `Bool × Option String` carries no per-element
list and no partial results). -/
theorem c3_validation_all_or_nothing (t : List (TreeElem ℚ)) (a : List (ArrElem ℚ))
    (b : List (BldgElem ℚ)) :
    ((validate_inputs t a b).1 = true ↔
      (∀ i (h : i < t.length), checkTree i t[i] = none) ∧
      (∀ i (h : i < a.length), checkArray i a[i] = none) ∧
      (∀ i (h : i < b.length), checkBldg i b[i] = none))
    ∧ ((validate_inputs t a b).2 = none ↔ (validate_inputs t a b).1 = true)
    ∧ (∀ i (h : i < t.length) m,
        (∀ j (hj : j < t.length), j < i → checkTree j t[j] = none) →
        checkTree i t[i] = some m → (validate_inputs t a b).2 = some m)
    ∧ ((∀ i (h : i < t.length), checkTree i t[i] = none) →
        ∀ i (h : i < a.length) m,
        (∀ j (hj : j < a.length), j < i → checkArray j a[j] = none) →
        checkArray i a[i] = some m → (validate_inputs t a b).2 = some m)
    ∧ ((∀ i (h : i < t.length), checkTree i t[i] = none) →
        (∀ i (h : i < a.length), checkArray i a[i] = none) →
        ∀ i (h : i < b.length) m,
        (∀ j (hj : j < b.length), j < i → checkBldg j b[j] = none) →
        checkBldg i b[i] = some m → (validate_inputs t a b).2 = some m) := by
  have hT := scanFrom_eq_none (checkTree (K := ℚ)) t 0
  have hA := scanFrom_eq_none (checkArray (K := ℚ)) a 0
  have hB := scanFrom_eq_none (checkBldg (K := ℚ)) b 0
  simp only [Nat.zero_add] at hT hA hB
  refine ⟨?_, validate_msg_none_iff t a b, ?_, ?_, ?_⟩
  · rw [validate_true_iff, hT, hA, hB]
  · intro i h m hpre hf
    have hst : scanFrom checkTree 0 t = some m :=
      scanFrom_first checkTree t 0 i h m
        (fun j hj hji => by simpa using hpre j hj hji) (by simpa using hf)
    unfold validate_inputs
    rw [hst]
  · intro hAllT i h m hpre hf
    have hst : scanFrom checkTree 0 t = none := hT.mpr hAllT
    have hsa : scanFrom checkArray 0 a = some m :=
      scanFrom_first checkArray a 0 i h m
        (fun j hj hji => by simpa using hpre j hj hji) (by simpa using hf)
    unfold validate_inputs
    rw [hst, hsa]
  · intro hAllT hAllA i h m hpre hf
    have hst : scanFrom checkTree 0 t = none := hT.mpr hAllT
    have hsa : scanFrom checkArray 0 a = none := hA.mpr hAllA
    have hsb : scanFrom checkBldg 0 b = some m :=
      scanFrom_first checkBldg b 0 i h m
        (fun j hj hji => by simpa using hpre j hj hji) (by simpa using hf)
    unfold validate_inputs
    rw [hst, hsa, hsb]

/-- Concrete run of C3: a non-point first tree element makes validation
fail with the tree message for index 0. -/
theorem c3_witness :
    (validate_inputs [(TreeElem.other : TreeElem ℚ)] [] []).2 = some (treeMsg 0) :=
  (c3_validation_all_or_nothing [TreeElem.other] [] []).2.2.1 0 (by decide)
    (treeMsg 0) (fun j _ hji => absurd hji (Nat.not_lt_zero j)) (by decide)

/-- C4: a batch whose array collection contains a surface whose normal at
the closest-point parameters of its centroid has strictly negative Z
fails validation, and the assembled document is the fixed placeholder (no
scene document is produced).  When the tree loop and all earlier array
elements pass and the surface is kernel-valid, the printed message is the
normal-direction message naming that surface's index.  Conversely a
surface whose normal has non-negative Z passes the normal-direction
check. -/
theorem c4_downward_normal_rejected (env : Env ℚ) (t : List (TreeElem ℚ))
    (a : List (ArrElem ℚ)) (b : List (BldgElem ℚ)) (i : Nat) (h : i < a.length)
    (s : Surface ℚ) (u v : ℚ)
    (hel : a[i] = ArrElem.srf s)
    (hcp : s.closestPoint s.centroid = some (u, v))
    (hz : (s.normalAt u v).z < 0) :
    (validate_inputs t a b).1 = false
    ∧ lkscriptOf env t a b = placeholder
    ∧ (scanFrom checkTree 0 t = none →
        (∀ j (hj : j < a.length), j < i → checkArray j a[j] = none) →
        s.isValid = true → (validate_inputs t a b).2 = some (normalMsg i))
    ∧ (∀ (s' : Surface ℚ) (j : Nat) (u' v' : ℚ), s'.isValid = true →
        s'.closestPoint s'.centroid = some (u', v') →
        0 ≤ (s'.normalAt u' v').z → checkArray j (ArrElem.srf s') = none) := by
  have hsome : ∃ m, checkArray i a[i] = some m := by
    rw [hel]
    show ∃ m, checkSurf i s = some m
    unfold checkSurf
    by_cases hv : s.isValid = false
    · exact ⟨_, by rw [if_pos hv]⟩
    · rw [if_neg hv, hcp]
      exact ⟨normalMsg i, by simp [hz]⟩
  have hfalse : (validate_inputs t a b).1 = false := by
    cases hb : (validate_inputs t a b).1 with
    | false => rfl
    | true =>
      exfalso
      obtain ⟨m, hm⟩ := hsome
      have hsa := ((validate_true_iff t a b).mp hb).2.1
      have hnone : checkArray i a[i] = none := by
        have := (scanFrom_eq_none (checkArray (K := ℚ)) a 0).mp hsa i h
        simpa using this
      rw [hnone] at hm
      cases hm
  refine ⟨hfalse, ?_, ?_, ?_⟩
  · unfold lkscriptOf
    rw [if_neg (by simp [hfalse])]
  · intro hst hpre hvalid
    have hca : checkArray i a[i] = some (normalMsg i) := by
      rw [hel]
      show checkSurf i s = _
      unfold checkSurf
      rw [if_neg (by simp [hvalid]), hcp]
      simp [hz]
    have hsa := scanFrom_first checkArray a 0 i h (normalMsg i)
      (fun j hj hji => by simpa using hpre j hj hji) (by simpa using hca)
    unfold validate_inputs
    rw [hst, hsa]
  · intro s' j u' v' hv hcp' hz'
    show checkSurf j s' = none
    unfold checkSurf
    rw [if_neg (by simp [hv]), hcp']
    simp [not_lt.mpr hz']

/-- Concrete run of C4: a single downward-facing surface makes the whole
batch fail and the output is the placeholder message. -/
theorem c4_witness :
    (validate_inputs ([] : List (TreeElem ℚ)) [ArrElem.srf sDown] []).1 = false ∧
    lkscriptOf qEnv [] [ArrElem.srf sDown] [] = placeholder :=
  ⟨(c4_downward_normal_rejected qEnv [] [ArrElem.srf sDown] [] 0 (by decide)
      sDown 0 0 rfl rfl (by decide)).1,
   (c4_downward_normal_rejected qEnv [] [ArrElem.srf sDown] [] 0 (by decide)
      sDown 0 0 rfl rfl (by decide)).2.1⟩

/-- C5 counterexample: a solid (Brep) with two faces — hence "neither a
surface nor a single-face solid promotable to a surface" — does NOT cause
validation to fail: the `isinstance` check at line 28 accepts every Brep
regardless of face count, and a valid upward-facing two-face Brep passes
the whole batch. -/
theorem c5_counterexample :
    validate_inputs ([] : List (TreeElem ℚ)) [ArrElem.brp [sUp, sUp] sUp] [] =
      (true, none) := by decide

/-- C5 amended: an array element that is neither a surface nor a solid
fails validation with the offending index reported; a single-face solid
is promoted to its face before the validity and normal checks; a solid
with more than one face is NOT rejected for its face count — it is
checked as-is and passes when valid with a non-downward normal. -/
theorem c5_array_type_check (t : List (TreeElem ℚ)) (pre post : List (ArrElem ℚ))
    (b : List (BldgElem ℚ)) :
    (scanFrom checkTree 0 t = none →
      (∀ j (hj : j < pre.length), checkArray j pre[j] = none) →
      (validate_inputs t (pre ++ ArrElem.other :: post) b).1 = false ∧
      (validate_inputs t (pre ++ ArrElem.other :: post) b).2 =
        some (arrayTypeMsg pre.length))
    ∧ (∀ (i : Nat) (faces : List (Surface ℚ)) (self : Surface ℚ),
      checkArray i (ArrElem.brp faces self) =
        checkSurf i (if faces.length = 1 then faces.getD 0 self else self))
    ∧ (∀ (i : Nat) (faces : List (Surface ℚ)) (self : Surface ℚ) (u v : ℚ),
      faces.length ≠ 1 → self.isValid = true →
      self.closestPoint self.centroid = some (u, v) →
      0 ≤ (self.normalAt u v).z →
      checkArray i (ArrElem.brp faces self) = none) := by
  refine ⟨?_, fun i faces self => rfl, ?_⟩
  · intro hst hAllPre
    have hprenone : scanFrom checkArray 0 pre = none :=
      (scanFrom_eq_none (checkArray (K := ℚ)) pre 0).mpr
        (fun i h => by simpa using hAllPre i h)
    have hsa : scanFrom checkArray 0 (pre ++ ArrElem.other :: post) =
        some (arrayTypeMsg pre.length) := by
      rw [scanFrom_append, hprenone]
      show scanFrom checkArray (0 + pre.length) (ArrElem.other :: post) = _
      rw [Nat.zero_add]
      rfl
    constructor
    · unfold validate_inputs
      rw [hst, hsa]
    · unfold validate_inputs
      rw [hst, hsa]
  · intro i faces self u v hne hv hcp hz
    show checkSurf i (if faces.length = 1 then faces.getD 0 self else self) = none
    rw [if_neg hne]
    unfold checkSurf
    rw [if_neg (by simp [hv]), hcp]
    simp [not_lt.mpr hz]

/-- Concrete run of the amended C5: a non-surface, non-solid array element
fails with the array type message for its index. -/
theorem c5_witness :
    (validate_inputs ([] : List (TreeElem ℚ)) [ArrElem.other] []).2 =
      some (arrayTypeMsg 0) :=
  ((c5_array_type_check [] [] [] []).1 rfl
    (fun j hj => absurd hj (Nat.not_lt_zero j))).2

/-- C7: for a surface with at least two extracted edge curves, the
encoder's Width is the length of the SECOND extracted edge curve and its
Length is the length of the FIRST, both in `get_trimming_rectangle_dimensions`
(which returns `(width, length)`) and in the `Width = .../Length = ...`
slots of the emitted panel statement. -/
theorem c7_width_length_order (env : Env ℚ) (s : Surface ℚ) (i : Nat)
    (u v e0 e1 : ℚ) (rest : List ℚ)
    (hcp : s.closestPoint s.centroid = some (u, v))
    (hedges : s.edgeLens = e0 :: e1 :: rest) :
    get_trimming_rectangle_dimensions s = (e1, e0) ∧
    surface_to_panel env s i =
      "O = create(" ++ sq ++ "Active surface" ++ sq ++ ");\n" ++
      "property(O, \x7bName=" ++ sq ++ "Panel_" ++ toString i ++ sq ++
      ", X=" ++ env.fmt s.centroid.x ++ ", Y=" ++ env.fmt s.centroid.y ++
      ",Width = " ++ env.fmt e1 ++ ", Length = " ++ env.fmt e0 ++
      ", Azimuth=" ++ env.fmt (panelAzimuth env (env.unitize (s.normalAt u v))) ++
      ", Tilt=" ++ env.fmt (panelTilt env (env.unitize (s.normalAt u v))) ++
      "\x7d);\n" := by
  have hdim : get_trimming_rectangle_dimensions s = (e1, e0) := by
    unfold get_trimming_rectangle_dimensions
    rw [hedges]
    rfl
  refine ⟨hdim, ?_⟩
  unfold surface_to_panel
  rw [hcp]
  simp only [hdim]

/-- Concrete run of C7: with recorded edge lengths `[3, 2]` the returned
`(width, length)` is `(2, 3)` — second edge as Width, first as Length. -/
theorem c7_witness : get_trimming_rectangle_dimensions sUp = (2, 3) :=
  (c7_width_length_order qEnv sUp 0 0 0 3 2 [] rfl rfl).1

/-- C9: on a batch that passes validation the assembled document is one
scene-reset statement followed by one panel statement per array element,
then one building statement per building element, then one tree statement
per tree element, each group in input order; the document starts with
exactly one `clear_scene();` (the remainder does not start with another);
if validation failed, the document is the fixed placeholder and no
encoding occurs. -/
theorem c9_document_assembly (env : Env ℚ) (t : List (TreeElem ℚ))
    (a : List (ArrElem ℚ)) (b : List (BldgElem ℚ)) :
    ((validate_inputs t a b).1 = true →
      lkscriptOf env t a b =
        resetStmt ++ (catStr (panelStmts env a) ++
          (catStr (buildingStmts env b) ++ catStr (treeStmts env t)))
      ∧ strStarts "clear_scene();" (lkscriptOf env t a b) = true
      ∧ strStarts "clear_scene();"
          (catStr (panelStmts env a) ++
            (catStr (buildingStmts env b) ++ catStr (treeStmts env t))) = false)
    ∧ ((validate_inputs t a b).1 = false → lkscriptOf env t a b = placeholder) := by
  constructor
  · intro hv
    have hd := lkscript_valid_eq env t a b hv
    refine ⟨hd, ?_, ?_⟩
    · rw [hd]
      exact strStarts_clear_reset _
    · apply strStarts_clear_of_headOk
      apply headOk_append
      · apply catStr_headOk
        intro x hx
        obtain ⟨p, hp, rfl⟩ := List.mem_map.mp hx
        exact panel_headOk env _ _
      · apply headOk_append
        · apply catStr_headOk
          intro x hx
          obtain ⟨p, hp, rfl⟩ := List.mem_map.mp hx
          exact box_headOk env _ _
        · apply catStr_headOk
          intro x hx
          obtain ⟨p, hp, rfl⟩ := List.mem_map.mp hx
          exact tree_headOk env _ _
  · intro hv
    unfold lkscriptOf
    rw [if_neg (by simp [hv])]

/-- Concrete run of C9: the empty (valid) batch produces exactly the
scene-reset statement. -/
theorem c9_witness :
    lkscriptOf qEnv ([] : List (TreeElem ℚ)) [] [] =
      resetStmt ++ (catStr (panelStmts qEnv []) ++
        (catStr (buildingStmts qEnv []) ++ catStr (treeStmts qEnv []))) :=
  ((c9_document_assembly qEnv [] [] []).1 (by decide)).1

/-- The panel-statement list splits along a split of the array input; the
element at the split point keeps its absolute index. -/
theorem panelStmts_append_cons (env : Env K) (pre post : List (ArrElem K))
    (e : ArrElem K) :
    panelStmts env (pre ++ e :: post) =
      panelStmts env pre ++
        surface_to_panel env (rawSurface e) pre.length ::
          (List.enumFrom (pre.length + 1) post).map
            (fun p => surface_to_panel env (rawSurface p.2) p.1) := by
  unfold panelStmts
  show ((pre ++ e :: post).enumFrom 0).map _ = _
  rw [List.enumFrom_append]
  simp [List.map_append]
  rfl

/-- C8: for a surface on which the `ClosestPoint` query at the centroid
fails, the panel encoder contributes the empty string (no statement for
that index), and the batch is not aborted: the panel-statement list keeps
one (empty) entry at that surface's index, subsequent panels keep their
absolute indices, and the whole document is still assembled from the rest
of the batch whenever validation passed. -/
theorem c8_silent_skip (env : Env ℚ) (s : Surface ℚ)
    (hcp : s.closestPoint s.centroid = none) :
    (∀ i, surface_to_panel env s i = "")
    ∧ (∀ (pre post : List (ArrElem ℚ)),
        panelStmts env (pre ++ ArrElem.srf s :: post) =
          panelStmts env pre ++ "" ::
            (List.enumFrom (pre.length + 1) post).map
              (fun p => surface_to_panel env (rawSurface p.2) p.1))
    ∧ (∀ (t : List (TreeElem ℚ)) (pre post : List (ArrElem ℚ))
        (b : List (BldgElem ℚ)),
        (validate_inputs t (pre ++ ArrElem.srf s :: post) b).1 = true →
        lkscriptOf env t (pre ++ ArrElem.srf s :: post) b =
          resetStmt ++ (catStr (panelStmts env pre ++ "" ::
            (List.enumFrom (pre.length + 1) post).map
              (fun p => surface_to_panel env (rawSurface p.2) p.1)) ++
            (catStr (buildingStmts env b) ++ catStr (treeStmts env t)))) := by
  have hempty : ∀ i, surface_to_panel env s i = "" := by
    intro i
    simp [surface_to_panel, hcp]
  have hsplit : ∀ (pre post : List (ArrElem ℚ)),
      panelStmts env (pre ++ ArrElem.srf s :: post) =
        panelStmts env pre ++ "" ::
          (List.enumFrom (pre.length + 1) post).map
            (fun p => surface_to_panel env (rawSurface p.2) p.1) := by
    intro pre post
    rw [panelStmts_append_cons]
    show _ ++ surface_to_panel env s pre.length :: _ = _
    rw [hempty]
  refine ⟨hempty, hsplit, ?_⟩
  intro t pre post b hv
  rw [lkscript_valid_eq env t (pre ++ ArrElem.srf s :: post) b hv, hsplit]

/-- Concrete run of C8: the closest-point-failing surface passes
validation yet the assembled document for it is just the scene reset plus
the other (building) statement. -/
theorem c8_witness :
    surface_to_panel qEnv sNoCp 0 = "" ∧
    panelStmts qEnv [ArrElem.srf sNoCp] =
      panelStmts qEnv [] ++ "" :: (List.enumFrom 1 ([] : List (ArrElem ℚ))).map
        (fun p => surface_to_panel qEnv (rawSurface p.2) p.1) :=
  ⟨(c8_silent_skip qEnv sNoCp rfl).1 0,
   (c8_silent_skip qEnv sNoCp rfl).2.1 [] []⟩

/-- C10: during validation, the upward-normal check is only performed
when the closest-point query at the centroid succeeds: a kernel-valid
surface on which the query fails passes the array check entirely, and the
panel encoder later contributes the empty string for it instead of
rejecting it. -/
theorem c10_validator_skips_normal_check (env : Env ℚ) (s : Surface ℚ) (i : Nat)
    (hvalid : s.isValid = true) (hcp : s.closestPoint s.centroid = none) :
    checkArray i (ArrElem.srf s) = none ∧ surface_to_panel env s i = "" := by
  constructor
  · show checkSurf i s = none
    unfold checkSurf
    rw [if_neg (by simp [hvalid]), hcp]
  · simp [surface_to_panel, hcp]

/-- Concrete run of C10: `sNoCp` passes the array check and is skipped by
the encoder. -/
theorem c10_witness :
    checkArray 0 (ArrElem.srf sNoCp) = none ∧ surface_to_panel qEnv sNoCp 0 = "" :=
  c10_validator_skips_normal_check qEnv sNoCp 0 rfl rfl

/-- C1 counterexample: a run whose validation fails, with the write flag
set, DOES attempt a write — the placeholder message is written to the
resolved output path, clobbering the previous file contents (`"old"`).
The path setup and writing at lines 154-165 are outside the validation
branch. -/
theorem c1_counterexample :
    (runScript qEnv [(TreeElem.other : TreeElem ℚ)] [] [] "out.lk" true
        (abspathModel "/cwd") (fun _ => some "old")).wrote =
      some ("/cwd/out.lk", "Please check inputs") ∧
    (runScript qEnv [(TreeElem.other : TreeElem ℚ)] [] [] "out.lk" true
        (abspathModel "/cwd") (fun _ => some "old")).fs "/cwd/out.lk" =
      some "Please check inputs" ∧
    (validate_inputs [(TreeElem.other : TreeElem ℚ)] [] []).1 = false := by decide

/-- C1 amended: if validation fails, no scene document is produced (the
document is the fixed placeholder), but the write phase still runs: when
the write flag is set the placeholder message is written to the resolved
output path (overwriting any previous file); only when the flag is unset
is no write performed and the previous file left untouched. -/
theorem c1_failed_validation_write (env : Env ℚ) (t : List (TreeElem ℚ))
    (a : List (ArrElem ℚ)) (b : List (BldgElem ℚ)) (p : String) (w : Bool)
    (ap : String → String) (fs0 : String → Option String)
    (hv : (validate_inputs t a b).1 = false) :
    (runScript env t a b p w ap fs0).lkscript = placeholder
    ∧ (w = true → (runScript env t a b p w ap fs0).wrote =
        some (ap (if p = "" then "3DShading.lk" else p), placeholder))
    ∧ (w = false → (runScript env t a b p w ap fs0).wrote = none ∧
        (runScript env t a b p w ap fs0).fs = fs0) := by
  have hlk : lkscriptOf env t a b = placeholder := by
    unfold lkscriptOf
    rw [if_neg (by simp [hv])]
  refine ⟨?_, ?_, ?_⟩
  · unfold runScript
    cases w <;> simp [hlk]
  · intro hw
    subst hw
    unfold runScript
    simp [hlk]
  · intro hw
    subst hw
    unfold runScript
    simp

/-- Concrete run of the amended C1: with the flag unset nothing is
written. -/
theorem c1_witness :
    (runScript qEnv [(TreeElem.other : TreeElem ℚ)] [] [] "" false
        (abspathModel "/cwd") (fun _ => none)).wrote = none :=
  ((c1_failed_validation_write qEnv [TreeElem.other] [] [] "" false
      (abspathModel "/cwd") (fun _ => none) (by decide)).2.2 rfl).1

/-- C2 counterexample: with the write flag set and a relative target path,
the path reported back to the caller (`lk_path`, line 163) is the path as
given, NOT the resolved absolute form that the file is written to. -/
theorem c2_counterexample :
    (runScript qEnv ([] : List (TreeElem ℚ)) [] [] "out.lk" true
        (abspathModel "/cwd") (fun _ => none)).lk_path = "out.lk" ∧
    (runScript qEnv ([] : List (TreeElem ℚ)) [] [] "out.lk" true
        (abspathModel "/cwd") (fun _ => none)).wrote =
      some ("/cwd/out.lk", "clear_scene();\n") ∧
    (runScript qEnv ([] : List (TreeElem ℚ)) [] [] "out.lk" true
        (abspathModel "/cwd") (fun _ => none)).lk_path ≠
      abspathModel "/cwd" "out.lk" := by decide

/-- C2 amended: if the write flag is set, the target path (or the fixed
default filename when the path is unset) is resolved to an absolute form,
the file at the resolved path is overwritten with the full document text
(other paths untouched), and the path AS PROVIDED (after defaulting) —
not its resolved absolute form — is reported back to the caller; if the
flag is not set, the fixed sentinel string is reported and nothing is
written. -/
theorem c2_writer_contract (env : Env ℚ) (t : List (TreeElem ℚ))
    (a : List (ArrElem ℚ)) (b : List (BldgElem ℚ)) (p : String) (w : Bool)
    (ap : String → String) (fs0 : String → Option String) :
    (w = true →
      (runScript env t a b p w ap fs0).wrote =
        some (ap (if p = "" then "3DShading.lk" else p), lkscriptOf env t a b)
      ∧ (runScript env t a b p w ap fs0).fs
          (ap (if p = "" then "3DShading.lk" else p)) =
            some (lkscriptOf env t a b)
      ∧ (∀ q, q ≠ ap (if p = "" then "3DShading.lk" else p) →
          (runScript env t a b p w ap fs0).fs q = fs0 q)
      ∧ (runScript env t a b p w ap fs0).lk_path =
          (if p = "" then "3DShading.lk" else p))
    ∧ (w = false →
      (runScript env t a b p w ap fs0).wrote = none
      ∧ (runScript env t a b p w ap fs0).fs = fs0
      ∧ (runScript env t a b p w ap fs0).lk_path = "_write_lk not set to True") := by
  constructor
  · intro hw
    subst hw
    unfold runScript
    refine ⟨by simp, by simp, ?_, by simp⟩
    intro q hq
    simp [hq]
  · intro hw
    subst hw
    unfold runScript
    simp

/-- Concrete run of the amended C2: an unset path defaults to the fixed
filename, which is what is reported back. -/
theorem c2_witness :
    (runScript qEnv ([] : List (TreeElem ℚ)) [] [] "" true (abspathModel "/cwd")
        (fun _ => none)).lk_path = "3DShading.lk" :=
  ((c2_writer_contract qEnv [] [] [] "" true (abspathModel "/cwd")
      (fun _ => none)).1 rfl).2.2.2

end GH
